import Mathlib

/-!
Shallow embedding of the movie-review Flask application (src/app.py) for
verification of its specification.  Pure fragments of the handlers become Lean
functions; the SQLAlchemy review store becomes an explicit list kept in
insertion (ascending-id) order; the process-wide flask-caching `simple` backend
becomes an association list from string keys to stored pages; Python float
arithmetic is modelled exactly over ℚ; fallible steps return `Option`/`Except`.
-/

namespace MovieReview

/-- A `User` row (src/app.py lines 45-51); the `reviews` backref is recovered by
filtering the review store. -/
structure User where
  id : Nat
  username : String
  email : String
  password : String
  is_admin : Bool
deriving DecidableEq

/-- A `Review` row (src/app.py lines 53-59).  `confidence` is a Python float,
modelled exactly over ℚ; `imdb_id` is nullable. -/
structure Review where
  id : Nat
  content : String
  sentiment : String
  confidence : ℚ
  user_id : Nat
  imdb_id : Option String
deriving DecidableEq

/-- The user record built by the `register` handler on POST (src/app.py lines
82-90): `is_admin_user = True if email == 'admin@admin.com' else False`, and the
row is created with exactly those fields.  Password hashing is the external
bcrypt collaborator; `hashed_password` stands for its output. -/
def registerUser (id : Nat) (username email hashed_password : String) : User :=
  { id := id, username := username, email := email, password := hashed_password,
    is_admin := email == "admin@admin.com" }

/-- The `stats` dictionary of the `profile` view (src/app.py lines 127-144). -/
structure Stats where
  total : Nat
  positive : Nat
  negative : Nat
  positive_percent : ℚ
  negative_percent : ℚ
deriving DecidableEq

/-- The statistics block of `profile` (src/app.py lines 127-144):
`total_reviews = len(reviews)`; `positive_count = sum(1 for r in reviews if
r.sentiment == 'Positive')`; `negative_count = total_reviews - positive_count`;
the percent fields divide by `total_reviews` only when it is positive and are
`0` otherwise.  The percent divisions are idealized over exact ℚ here; the
program's IEEE-754 double behaviour of those two lines is modelled bit-exactly
by `profilePercentsFloat` below. -/
def profileStats (reviews : List Review) : Stats :=
  let total_reviews := reviews.length
  let positive_count := (reviews.filter (fun r => r.sentiment == "Positive")).length
  let negative_count := total_reviews - positive_count
  if total_reviews > 0 then
    { total := total_reviews, positive := positive_count, negative := negative_count,
      positive_percent := ((positive_count : ℚ) / (total_reviews : ℚ)) * 100,
      negative_percent := ((negative_count : ℚ) / (total_reviews : ℚ)) * 100 }
  else
    { total := total_reviews, positive := positive_count, negative := negative_count,
      positive_percent := 0, negative_percent := 0 }

/-- Round-to-nearest with ties to even on an integer grid: the rounding rule of
IEEE-754 binary64, which CPython uses for float arithmetic. -/
def roundHalfEven (q : ℚ) : ℤ :=
  if q - ⌊q⌋ < 1/2 then ⌊q⌋
  else if 1/2 < q - ⌊q⌋ then ⌊q⌋ + 1
  else if ⌊q⌋ % 2 = 0 then ⌊q⌋ else ⌊q⌋ + 1

def pow2 (e : ℤ) : ℚ := (2 : ℚ) ^ e

/-- Scale a positive rational into the binary64 mantissa range
`[2^52, 2^53)` by repeated doubling or halving, returning the scaled value and
the grid exponent; the fuel covers the full binary64 exponent range and beyond,
so it is never exhausted for ratios or products of binary64 values. -/
def scaleToMantissa : ℕ → ℚ → ℤ → ℚ × ℤ
  | 0, y, e => (y, e)
  | n+1, y, e =>
    if y < 2^52 then scaleToMantissa n (y * 2) (e - 1)
    else if 2^53 ≤ y then scaleToMantissa n (y / 2) (e + 1)
    else (y, e)

/-- The exact value of the IEEE-754 binary64 double nearest to `x` (ties to
even), for `x` in the normal range — overflow and subnormal underflow, which
the percent computation cannot reach, are not modelled.  CPython's `int / int`
and float `*` are correctly rounded, so composing exact arithmetic with this
rounding models them exactly. -/
def floatRound (x : ℚ) : ℚ :=
  if x = 0 then 0
  else
    (if x < 0 then -1 else 1) *
      (roundHalfEven (scaleToMantissa 2200 |x| 0).1 : ℚ) *
        pow2 (scaleToMantissa 2200 |x| 0).2

/-- CPython `a / b` on integers: the correctly rounded double of the exact
quotient. -/
def floatDiv (a b : ℚ) : ℚ := floatRound (a / b)

/-- CPython float `*`: the correctly rounded double of the exact product of
two representable operands. -/
def floatMul (a b : ℚ) : ℚ := floatRound (a * b)

/-- The percent fields of the `profile` statistics computed as the program
computes them (src/app.py lines 131-136): `(positive_count / total_reviews) *
100` and `(negative_count / total_reviews) * 100` in IEEE-754 binary64
arithmetic, `0` and `0` when there are no reviews.  `profileStats` above
idealizes these two divisions over exact ℚ; this is the bit-exact companion. -/
def profilePercentsFloat (reviews : List Review) : ℚ × ℚ :=
  let total_reviews := reviews.length
  let positive_count := (reviews.filter (fun r => r.sentiment == "Positive")).length
  let negative_count := total_reviews - positive_count
  if total_reviews > 0 then
    (floatMul (floatDiv (positive_count : ℚ) (total_reviews : ℚ)) 100,
     floatMul (floatDiv (negative_count : ℚ) (total_reviews : ℚ)) 100)
  else (0, 0)

/-- A concrete profile of three reviews, two `Positive` and one `Negative`. -/
def threeReviewProfile : List Review :=
  [{ id := 1, content := "loved it", sentiment := "Positive", confidence := 1,
     user_id := 1, imdb_id := none },
   { id := 2, content := "great fun", sentiment := "Positive", confidence := 1,
     user_id := 1, imdb_id := none },
   { id := 3, content := "awful", sentiment := "Negative", confidence := 1,
     user_id := 1, imdb_id := none }]

/-- The `movie` search view's page count (src/app.py line 170):
`total_pages = math.ceil(total_results / 10)`, the true division modelled
exactly over ℚ. -/
def movieTotalPages (total_results : Nat) : Int :=
  ⌈(total_results : ℚ) / 10⌉

end MovieReview

namespace MovieReview

/-- The loaded scikit-learn pipeline as consumed by `predict` (src/app.py lines
209-213).  `proba t` is the two-class posterior row `model.predict_proba([t])[0]`
and `predictClass t` the class returned by `model.predict([t])[0]`.  That the
posteriors form a distribution and that `predict` is their argmax are
scikit-learn's contract, stated as the predicates below rather than baked into
the structure. -/
structure SentimentModel where
  proba : String → ℚ × ℚ
  predictClass : String → Nat

/-- The two class posteriors are nonnegative and sum to 1. -/
def SentimentModel.validProba (m : SentimentModel) : Prop :=
  ∀ t, 0 ≤ (m.proba t).1 ∧ 0 ≤ (m.proba t).2 ∧ (m.proba t).1 + (m.proba t).2 = 1

/-- scikit-learn contract: `predict` returns `classes_[np.argmax(proba)]` with
`classes_ = [0, 1]`; `np.argmax` takes the first maximal index, so a tie goes to
class 0. -/
def SentimentModel.predictIsArgmax (m : SentimentModel) : Prop :=
  ∀ t, m.predictClass t = if (m.proba t).1 < (m.proba t).2 then 1 else 0

/-- src/app.py line 211: `confidence = np.max(probabilities)` over the single
posterior row. -/
def classifyConfidence (m : SentimentModel) (t : String) : ℚ :=
  max (m.proba t).1 (m.proba t).2

/-- src/app.py lines 212-213: `prediction = model.predict(...)[0]`;
`prediction_text = 'Positive' if prediction == 1 else 'Negative'`. -/
def classifyLabel (m : SentimentModel) (t : String) : String :=
  if m.predictClass t = 1 then "Positive" else "Negative"

/-- The OMDB metadata payload for one item, opaque beyond identity. -/
structure MovieData where
  title : String
deriving DecidableEq

/-- Outcome of the `requests.get` call to OMDB inside `movie_details`
(src/app.py lines 189-196): a good payload, a body with `Response: 'False'`, or
a raised `RequestException`. -/
inductive LookupResult where
  | ok (m : MovieData)
  | notFound
  | transportError
deriving DecidableEq

/-- The rendered `movie_details` page, represented by its two template inputs
(src/app.py line 201). -/
structure DetailPage where
  movie_data : Option MovieData
  reviews : List (Review × User)
deriving DecidableEq

/-- The process-wide flask-caching `simple` backend (src/app.py lines 27-28):
string keys to stored pages. -/
abbrev Cache := List (String × DetailPage)

def cacheLookup (c : Cache) (k : String) : Option DetailPage :=
  (c.find? (fun e => e.1 == k)).map (fun e => e.2)

def cacheDelete (c : Cache) (k : String) : Cache :=
  c.filter (fun e => !(e.1 == k))

def cacheSet (c : Cache) (k : String) (v : DetailPage) : Cache :=
  (k, v) :: cacheDelete c k

/-- The key under which `@cache.cached` stores the `movie_details` response:
the decorator's default key is `"view/%s" % request.path`, and the route path
for `movie_details` is `/app/movie/<imdb_id>` (src/app.py lines 182-184). -/
def movieDetailsKey (imdb_id : String) : String :=
  "view//app/movie/" ++ imdb_id

/-- src/app.py line 199: `db.session.query(Review, User).join(User)
.filter(Review.imdb_id == imdb_id).order_by(Review.id.desc()).all()` over the
in-memory store.  The store is kept in ascending-id insertion order, so
descending-id order is the reverse of the filtered list; the inner join pairs
each review with its author row. -/
def reviewsForItem (users : List User) (store : List Review) (imdb_id : String) :
    List (Review × User) :=
  ((store.filter (fun r => r.imdb_id == some imdb_id)).reverse).filterMap
    (fun r => (users.find? (fun u => u.id == r.user_id)).map (fun u => (r, u)))

/-- The body of the `movie_details` view before caching (src/app.py lines
185-201): on `Response: 'False'` the payload is reset to `None`; on a
`RequestException` it was never assigned; the review query runs only when
`movie_data` is truthy, so both failure shapes render with no metadata and an
empty review list. -/
def movieDetailsBody (lookup : LookupResult) (users : List User)
    (store : List Review) (imdb_id : String) : DetailPage :=
  match lookup with
  | .ok m => { movie_data := some m, reviews := reviewsForItem users store imdb_id }
  | .notFound => { movie_data := none, reviews := [] }
  | .transportError => { movie_data := none, reviews := [] }

/-- The `movie_details` view as decorated with `@cache.cached(timeout=86400)`
(src/app.py line 184) — the spec's `get_or_populate`.  On a hit the stored page
is returned unchanged; on a miss the body runs and its result is stored
unconditionally: the decorator caches whatever the view returns (it has no
response filter), failure pages included.  TTL expiry is outside the model;
every claim involving the cache is conditioned on no expiry. -/
def movieDetails (c : Cache) (lookup : LookupResult) (users : List User)
    (store : List Review) (imdb_id : String) : DetailPage × Cache :=
  match cacheLookup c (movieDetailsKey imdb_id) with
  | some v => (v, c)
  | none =>
      let v := movieDetailsBody lookup users store imdb_id
      (v, cacheSet c (movieDetailsKey imdb_id) v)

/-- The key actually deleted by `cache.delete_memoized(movie_details, imdb_id)`
(src/app.py lines 226 and 254).  `movie_details` is decorated with
`@cache.cached`, not `@cache.memoize`; for such a function flask-caching's
`delete_memoized(f, *args)` computes `f.make_cache_key(f.uncached, *args)`, and
the `cached` decorator's key maker rebuilds the key from the view's route,
binding the view's `imdb_id` parameter to its first positional argument — which
is the *undecorated function object*, not the supplied id.  The deleted key
therefore embeds `fnArg`, the URL-quoted string form of that function object
(beginning `%3Cfunction` since `str` of a Python function begins `<function`),
and never the id that was passed. -/
def deleteMemoizedKey (fnArg : String) : String :=
  "view//app/movie/" ++ fnArg

/-- Python truthiness of a `request.form.get` result (`if imdb_id:`): a missing
field (`None`) and the empty string are both falsy. -/
def formTruthy : Option String → Bool
  | none => false
  | some s => !(s == "")

/-- A fault raised by the cache backend inside the delete call. -/
inductive CacheError where
  | backend
deriving DecidableEq

/-- Success payload of `predict` (src/app.py lines 228-237): the AJAX JSON body
or the redirect to `movie_details`.  `confidence_percent` is the confidence
scaled to a percentage; the one-decimal f-string rendering of that number is
display formatting and not modelled further. -/
inductive PredictResponse where
  | ajax (status : String) (prediction_text : String) (prediction : Nat)
      (confidence_percent : ℚ)
  | redirect (imdb_id : Option String)
deriving DecidableEq

/-- Post-state of one `predict` request: the review store, the cache, and the
response — `Except.error` when an unhandled exception aborted the handler. -/
structure PredictOutcome where
  store : List Review
  cache : Cache
  response : Except CacheError PredictResponse

/-- The `predict` handler (src/app.py lines 203-237) over the in-memory state,
steps in source order: classify the text, build the `Review` row, commit it
(append to the store), then — only when the posted `imdb_id` is truthy —
`cache.delete_memoized(movie_details, imdb_id)`, and finally the success
response.  `fnArg` is the runtime string form of the undecorated view function
(see `deleteMemoizedKey`); `deleteRaises` is the oracle for whether the cache
backend faults during the delete.  The handler has no try/except around the
delete, so a raise there propagates after the commit. -/
def predictFlow (m : SentimentModel) (store : List Review) (c : Cache)
    (fnArg : String) (deleteRaises : Bool) (next_id user_id : Nat)
    (review_text : String) (imdb_id : Option String) (is_ajax : Bool) :
    PredictOutcome :=
  let confidence := classifyConfidence m review_text
  let prediction := m.predictClass review_text
  let prediction_text := classifyLabel m review_text
  let review : Review :=
    { id := next_id, content := review_text, sentiment := prediction_text,
      confidence := confidence, user_id := user_id, imdb_id := imdb_id }
  let committed := store ++ [review]
  let response : PredictResponse :=
    if is_ajax then .ajax "success" prediction_text prediction (confidence * 100)
    else .redirect imdb_id
  if formTruthy imdb_id then
    if deleteRaises then
      { store := committed, cache := c, response := .error .backend }
    else
      { store := committed, cache := cacheDelete c (deleteMemoizedKey fnArg),
        response := .ok response }
  else
    { store := committed, cache := c, response := .ok response }

/-- The `delete_review` moderation handler (src/app.py lines 247-259): look the
review up by id (404 → `none`), delete the memoized key when the row's
`imdb_id` is truthy, then delete the row and commit. -/
def deleteReviewFlow (store : List Review) (c : Cache) (fnArg : String)
    (review_id : Nat) : Option (List Review × Cache) :=
  match store.find? (fun r => r.id == review_id) with
  | none => none
  | some r =>
      let c' := if formTruthy r.imdb_id then cacheDelete c (deleteMemoizedKey fnArg)
                else c
      some (store.filter (fun x => !(x.id == review_id)), c')

/-- Failure loading the serialized model artifact at src/app.py line 38. -/
inductive LoadError where
  | fileNotFound
  | unpicklingFailed
deriving DecidableEq

/-- The one process-wide application value: every handler closes over the model
loaded at line 38.  That `joblib.load` sits in the module body before any route
definition, so module import runs it unconditionally and a raised load error
aborts the import before a single handler exists. -/
structure App where
  model : SentimentModel

/-- Module import (src/app.py top level): the load at line 38 either raises,
aborting startup, or yields the model every handler closes over. -/
def appInit (load : Except LoadError SentimentModel) : Except LoadError App :=
  match load with
  | .error e => .error e
  | .ok m => .ok { model := m }

/-- A concrete two-class model used to instantiate theorems: constant
posteriors (0, 1) and constant predicted class 1. -/
def exampleModel : SentimentModel :=
  { proba := fun _ => (0, 1), predictClass := fun _ => 1 }

end MovieReview

namespace MovieReview

/-- Reviews not labelled `Positive` are exactly the ones the subtraction
`total_reviews - positive_count` counts. -/
lemma length_filter_not_positive (l : List Review) :
    (l.filter (fun r => !(r.sentiment == "Positive"))).length =
      l.length - (l.filter (fun r => r.sentiment == "Positive")).length := by
  induction l with
  | nil => rfl
  | cons a l ih =>
    have hle := List.length_filter_le (fun r => r.sentiment == "Positive") l
    cases h : (a.sentiment == "Positive") <;>
      simp [List.filter_cons, h, ih] <;> omega

/-- C4: the `profile` statistics satisfy `total = len(reviews)`,
`positive = count(sentiment == Positive)`, `negative = total - positive`,
`positive_percent = 100 * positive / total` and
`negative_percent = 100 * negative / total` when `total > 0`, and all five
fields are `0` on the empty sequence (no division fault). -/
theorem profile_stats_aggregation (reviews : List Review) :
    (profileStats reviews).total = reviews.length ∧
    (profileStats reviews).positive =
      (reviews.filter (fun r => r.sentiment == "Positive")).length ∧
    (profileStats reviews).negative =
      reviews.length - (reviews.filter (fun r => r.sentiment == "Positive")).length ∧
    (profileStats reviews).positive_percent =
      (if 0 < reviews.length then
        100 * ((reviews.filter (fun r => r.sentiment == "Positive")).length : ℚ) /
          (reviews.length : ℚ)
      else 0) ∧
    (profileStats reviews).negative_percent =
      (if 0 < reviews.length then
        100 * ((reviews.length -
            (reviews.filter (fun r => r.sentiment == "Positive")).length : ℕ) : ℚ) /
          (reviews.length : ℚ)
      else 0) ∧
    profileStats [] = { total := 0, positive := 0, negative := 0,
                        positive_percent := 0, negative_percent := 0 } := by
  by_cases h : reviews.length > 0
  · refine ⟨?_, ?_, ?_, ?_, ?_, rfl⟩ <;>
      simp only [profileStats, if_pos h] <;> ring
  · refine ⟨?_, ?_, ?_, ?_, ?_, rfl⟩ <;>
      simp only [profileStats, if_neg h]

/-- One doubling step of the mantissa scaling loop, stated with a fuel
hypothesis so evaluation proceeds linearly. -/
lemma scaleToMantissa_step_up (n : ℕ) (y : ℚ) (e : ℤ) (hn : n ≠ 0)
    (h : y < 2^52) :
    scaleToMantissa n y e = scaleToMantissa (n - 1) (y * 2) (e - 1) := by
  obtain ⟨m, rfl⟩ := Nat.exists_eq_succ_of_ne_zero hn
  simp only [scaleToMantissa, Nat.succ_sub_one]
  rw [if_pos h]

/-- The scaling loop stops once the value lies in the mantissa range. -/
lemma scaleToMantissa_stop (n : ℕ) (y : ℚ) (e : ℤ) (hn : n ≠ 0)
    (h1 : ¬ y < 2^52) (h2 : ¬ 2^53 ≤ y) :
    scaleToMantissa n y e = (y, e) := by
  obtain ⟨m, rfl⟩ := Nat.exists_eq_succ_of_ne_zero hn
  simp only [scaleToMantissa]
  rw [if_neg h1, if_neg h2]

/-- Evaluation scheme for `floatRound` on a positive input. -/
lemma floatRound_eval (x mant res : ℚ) (e : ℤ) (hx : 0 < x)
    (hloop : scaleToMantissa 2200 x 0 = (mant, e))
    (hround : (roundHalfEven mant : ℚ) * pow2 e = res) :
    floatRound x = res := by
  simp only [floatRound]
  rw [if_neg hx.ne', abs_of_pos hx, if_neg (lt_asymm hx), hloop, one_mul]
  exact hround

/-- The binary64 double nearest to `2/3`. -/
lemma floatDiv_two_thirds :
    floatDiv 2 3 = 6004799503160661 / 9007199254740992 := by
  simp only [floatDiv]
  refine floatRound_eval _ (18014398509481984/3) _ (-53) (by norm_num) ?_ ?_
  · simp (disch := norm_num) only [scaleToMantissa_step_up, scaleToMantissa_stop]
    norm_num
  · norm_num [roundHalfEven, pow2]

/-- The binary64 double nearest to `1/3`. -/
lemma floatDiv_one_third :
    floatDiv 1 3 = 6004799503160661 / 18014398509481984 := by
  simp only [floatDiv]
  refine floatRound_eval _ (18014398509481984/3) _ (-54) (by norm_num) ?_ ?_
  · simp (disch := norm_num) only [scaleToMantissa_step_up, scaleToMantissa_stop]
    norm_num
  · norm_num [roundHalfEven, pow2]

/-- `float(2/3) * 100` in binary64: the double printed `66.66666666666666`. -/
lemma floatMul_pos_percent :
    floatMul (6004799503160661 / 9007199254740992) 100 =
      4691249611844266 / 70368744177664 := by
  simp only [floatMul]
  refine floatRound_eval _ (150119987579016525/32) _ (-46) (by norm_num) ?_ ?_
  · simp (disch := norm_num) only [scaleToMantissa_step_up, scaleToMantissa_stop]
    norm_num
  · norm_num [roundHalfEven, pow2]

/-- `float(1/3) * 100` in binary64: the double printed `33.33333333333333`. -/
lemma floatMul_neg_percent :
    floatMul (6004799503160661 / 18014398509481984) 100 =
      4691249611844266 / 140737488355328 := by
  simp only [floatMul]
  refine floatRound_eval _ (150119987579016525/32) _ (-47) (by norm_num) ?_ ?_
  · simp (disch := norm_num) only [scaleToMantissa_step_up, scaleToMantissa_stop]
    norm_num
  · norm_num [roundHalfEven, pow2]

/-- The program's percent fields for the three-review profile, as exact values
of the binary64 doubles it stores. -/
lemma floatPercents_three :
    profilePercentsFloat threeReviewProfile =
      (4691249611844266 / 70368744177664, 4691249611844266 / 140737488355328) := by
  have hpair : profilePercentsFloat threeReviewProfile =
      (floatMul (floatDiv 2 3) 100, floatMul (floatDiv 1 3) 100) := rfl
  rw [hpair, floatDiv_two_thirds, floatDiv_one_third, floatMul_pos_percent,
    floatMul_neg_percent]

/-- C10 counterexample: the percent fields do NOT sum to exactly 100 under the
program's IEEE-754 double arithmetic.  For an ordinary profile of two
`Positive` and one `Negative` review the stored doubles are
`66.66666666666666` and `33.33333333333333`, whose sum is exactly
`100 - 2 ^ (-46)` — one ulp short of 100. -/
theorem profile_percent_sum_float_counterexample :
    (profilePercentsFloat threeReviewProfile).1 +
        (profilePercentsFloat threeReviewProfile).2 ≠ 100 ∧
    (profilePercentsFloat threeReviewProfile).1 +
        (profilePercentsFloat threeReviewProfile).2 =
      100 - 1 / 70368744177664 := by
  rw [floatPercents_three]
  constructor <;> norm_num

/-- C10 as amended: `positive + negative = total` always; because `negative` is
obtained by subtraction, it counts exactly the reviews whose sentiment is not
the string `Positive` — a sentiment that is neither label lands in `negative`;
and the percent fields sum to `100` (total > 0; `0` when empty) only in exact
arithmetic — under the program's IEEE-754 double arithmetic the stored percents
can fall short of 100: at two `Positive` and one `Negative` review their sum is
exactly `100 - 2 ^ (-46)`. -/
theorem profile_percent_sum_exact_and_float (reviews : List Review) :
    (profileStats reviews).positive + (profileStats reviews).negative =
      (profileStats reviews).total ∧
    ((profileStats reviews).negative : ℕ) =
      (reviews.filter (fun r => !(r.sentiment == "Positive"))).length ∧
    (profileStats reviews).positive_percent + (profileStats reviews).negative_percent =
      (if 0 < reviews.length then (100 : ℚ) else 0) ∧
    (profilePercentsFloat threeReviewProfile).1 +
        (profilePercentsFloat threeReviewProfile).2 =
      100 - 1 / 70368744177664 := by
  have hfloat : (profilePercentsFloat threeReviewProfile).1 +
      (profilePercentsFloat threeReviewProfile).2 = 100 - 1 / 70368744177664 := by
    rw [floatPercents_three]
    norm_num
  have hle := List.length_filter_le (fun r => r.sentiment == "Positive") reviews
  by_cases h : reviews.length > 0
  · refine ⟨?_, ?_, ?_, hfloat⟩
    · simp only [profileStats, if_pos h]
      omega
    · simp only [profileStats, if_pos h]
      exact (length_filter_not_positive reviews).symm
    · simp only [profileStats, if_pos h]
      have ht : ((reviews.length : ℚ)) ≠ 0 := by
        exact_mod_cast Nat.pos_iff_ne_zero.mp h
      rw [Nat.cast_sub hle]
      field_simp
      ring
  · refine ⟨?_, ?_, ?_, hfloat⟩
    · simp only [profileStats, if_neg h]
      omega
    · simp only [profileStats, if_neg h]
      exact (length_filter_not_positive reviews).symm
    · simp only [profileStats, if_neg h]
      norm_num

/-- `math.ceil(n / 10)` over exact arithmetic is natural ceiling division. -/
lemma movieTotalPages_eq_natCeilDiv (n : ℕ) :
    movieTotalPages n = (((n + 9) / 10 : ℕ) : ℤ) := by
  unfold movieTotalPages
  rw [Int.ceil_eq_iff]
  simp only [Int.cast_natCast]
  have h1 : (10 : ℚ) * (((n + 9) / 10 : ℕ) : ℚ) < (n : ℚ) + 10 := by
    exact_mod_cast (by omega : 10 * ((n + 9) / 10) < n + 10)
  have h2 : (n : ℚ) ≤ 10 * (((n + 9) / 10 : ℕ) : ℚ) := by
    exact_mod_cast (by omega : n ≤ 10 * ((n + 9) / 10))
  constructor
  · rw [lt_div_iff₀ (by norm_num : (0:ℚ) < 10)]
    linarith
  · rw [div_le_iff₀ (by norm_num : (0:ℚ) < 10)]
    linarith

/-- C5: the page count computed by the `movie` view is the ceiling of
`total_results / 10` — equal to natural ceiling division `(n + 9) / 10` for
every `n` — with the anchor values `pages 0 = 0`, `pages 10 = 1`,
`pages 25 = 3`. -/
theorem movie_total_pages_correct :
    (∀ n : ℕ, movieTotalPages n = (((n + 9) / 10 : ℕ) : ℤ)) ∧
    movieTotalPages 0 = 0 ∧ movieTotalPages 10 = 1 ∧ movieTotalPages 25 = 3 := by
  refine ⟨movieTotalPages_eq_natCeilDiv, ?_, ?_, ?_⟩ <;>
    rw [movieTotalPages_eq_natCeilDiv] <;> rfl

/-- C8: the user created by `register` is an administrator exactly when the
submitted email is the literal string `admin@admin.com`; any other email yields
a non-admin user. -/
theorem register_admin_iff :
    (∀ (id : Nat) (username email hashed : String),
      (registerUser id username email hashed).is_admin =
        (email == "admin@admin.com")) ∧
    (registerUser 1 "root" "admin@admin.com" "hash").is_admin = true ∧
    (registerUser 2 "bob" "bob@example.com" "hash").is_admin = false := by
  refine ⟨fun _ _ _ _ => rfl, ?_, ?_⟩ <;> decide

/-- C9: module import evaluates the model load before any handler exists: a
failed load aborts startup with that error, and a started application always
carries the successfully loaded model. -/
theorem app_init_fail_fast :
    (∀ e : LoadError, appInit (Except.error e) = Except.error e) ∧
    (∀ m : SentimentModel, appInit (Except.ok m) = Except.ok { model := m }) :=
  ⟨fun _ => rfl, fun _ => rfl⟩

end MovieReview

namespace MovieReview

/-- Deleting a cache key is idempotent. -/
lemma cacheDelete_idem (c : Cache) (k : String) :
    cacheDelete (cacheDelete c k) k = cacheDelete c k := by
  unfold cacheDelete
  rw [List.filter_filter]
  simp

/-- Deleting a key that has no entry leaves the cache unchanged. -/
lemma cacheDelete_absent (c : Cache) (k : String) (h : cacheLookup c k = none) :
    cacheDelete c k = c := by
  unfold cacheLookup at h
  rw [Option.map_eq_none'] at h
  rw [List.find?_eq_none] at h
  unfold cacheDelete
  rw [List.filter_eq_self]
  intro a ha
  have hb := h a ha
  simp at hb
  simp [hb]

/-- A freshly stored entry is found under its key. -/
lemma cacheLookup_set_self (c : Cache) (k : String) (v : DetailPage) :
    cacheLookup (cacheSet c k v) k = some v := by
  unfold cacheLookup cacheSet
  simp

/-- The review committed by `predict` is appended to the store in every branch
of the handler — also when the later cache delete raises. -/
lemma predictFlow_store_eq (m : SentimentModel) (store : List Review) (c : Cache)
    (fnArg : String) (deleteRaises : Bool) (next_id user_id : Nat)
    (review_text : String) (imdb_id : Option String) (is_ajax : Bool) :
    (predictFlow m store c fnArg deleteRaises next_id user_id review_text
        imdb_id is_ajax).store =
      store ++ [{ id := next_id, content := review_text,
                  sentiment := classifyLabel m review_text,
                  confidence := classifyConfidence m review_text,
                  user_id := user_id, imdb_id := imdb_id }] := by
  unfold predictFlow
  cases h : formTruthy imdb_id <;> cases deleteRaises <;> simp [h]

/-- C6: the confidence stored by `predict` is the maximum of the two class
posteriors — hence in `[0, 1]` for a valid pipeline — and the label is
`Positive` exactly when the predicted class is class 1, equivalently (under the
scikit-learn argmax contract) when the positive posterior strictly dominates;
the label is always one of exactly `Positive` or `Negative`, and the committed
review carries exactly these two values. -/
theorem classify_output_guarantee (m : SentimentModel) (t : String)
    (hv : m.validProba) (ha : m.predictIsArgmax) :
    classifyConfidence m t = max (m.proba t).1 (m.proba t).2 ∧
    0 ≤ classifyConfidence m t ∧ classifyConfidence m t ≤ 1 ∧
    (classifyLabel m t = "Positive" ↔ m.predictClass t = 1) ∧
    (classifyLabel m t = "Positive" ↔ (m.proba t).1 < (m.proba t).2) ∧
    (classifyLabel m t = "Positive" ∨ classifyLabel m t = "Negative") ∧
    (∀ (store : List Review) (c : Cache) (fnArg : String) (deleteRaises : Bool)
        (next_id user_id : Nat) (imdb_id : Option String) (is_ajax : Bool),
      (predictFlow m store c fnArg deleteRaises next_id user_id t imdb_id
          is_ajax).store =
        store ++ [{ id := next_id, content := t, sentiment := classifyLabel m t,
                    confidence := classifyConfidence m t, user_id := user_id,
                    imdb_id := imdb_id }]) := by
  obtain ⟨h0, h1, hsum⟩ := hv t
  have hiff : classifyLabel m t = "Positive" ↔ m.predictClass t = 1 := by
    constructor
    · intro hlab
      by_contra hp
      rw [classifyLabel, if_neg hp] at hlab
      exact absurd hlab (by decide)
    · intro hp
      rw [classifyLabel, if_pos hp]
  refine ⟨rfl, ?_, ?_, hiff, ?_, ?_, ?_⟩
  · exact le_max_of_le_left h0
  · have ha1 : (m.proba t).1 ≤ 1 := by linarith
    have ha2 : (m.proba t).2 ≤ 1 := by linarith
    exact max_le ha1 ha2
  · rw [hiff, ha t]
    by_cases hlt : (m.proba t).1 < (m.proba t).2
    · simp [hlt]
    · simp [hlt]
  · rw [classifyLabel]
    by_cases hp : m.predictClass t = 1
    · exact Or.inl (if_pos hp)
    · exact Or.inr (if_neg hp)
  · intro store c fnArg deleteRaises next_id user_id imdb_id is_ajax
    exact predictFlow_store_eq m store c fnArg deleteRaises next_id user_id t
      imdb_id is_ajax

/-- Witness for C6 at the concrete model with posteriors (0, 1) and predicted
class 1, on the text of the spec's scenario. -/
theorem classify_output_guarantee_witness :
    0 ≤ classifyConfidence exampleModel "this movie was wonderful" ∧
    classifyConfidence exampleModel "this movie was wonderful" ≤ 1 ∧
    (classifyLabel exampleModel "this movie was wonderful" = "Positive" ∨
      classifyLabel exampleModel "this movie was wonderful" = "Negative") := by
  have hv : exampleModel.validProba := by
    intro t
    show (0 : ℚ) ≤ 0 ∧ (0 : ℚ) ≤ 1 ∧ (0 : ℚ) + 1 = 1
    norm_num
  have ha : exampleModel.predictIsArgmax := by
    intro t
    show (1 : Nat) = if (0 : ℚ) < 1 then 1 else 0
    norm_num
  have h := classify_output_guarantee exampleModel "this movie was wonderful" hv ha
  exact ⟨h.2.1, h.2.2.1, h.2.2.2.2.2.1⟩

/-- C7: deleting the key computed by `delete_memoized` twice equals deleting it
once; deleting an absent key is a no-op, not an error; and calling the cached
`movie_details` view twice for the same id with no intervening mutation (or TTL
expiry, which the model excludes) returns the identical page and cache. -/
theorem invalidate_and_get_idempotent :
    (∀ (c : Cache) (fnArg : String),
      cacheDelete (cacheDelete c (deleteMemoizedKey fnArg)) (deleteMemoizedKey fnArg) =
        cacheDelete c (deleteMemoizedKey fnArg)) ∧
    (∀ (c : Cache) (k : String), cacheLookup c k = none → cacheDelete c k = c) ∧
    (∀ (c : Cache) (lookup : LookupResult) (users : List User)
        (store : List Review) (imdb_id : String),
      movieDetails (movieDetails c lookup users store imdb_id).2 lookup users
          store imdb_id =
        movieDetails c lookup users store imdb_id) := by
  refine ⟨fun c fnArg => cacheDelete_idem c (deleteMemoizedKey fnArg),
    fun c k h => cacheDelete_absent c k h, ?_⟩
  intro c lookup users store imdb_id
  rcases hl : cacheLookup c (movieDetailsKey imdb_id) with _ | v
  · simp [movieDetails, hl, cacheLookup_set_self]
  · simp [movieDetails, hl]

/-- Witness for C7: deleting a key from the empty cache is a no-op. -/
theorem invalidate_and_get_idempotent_witness :
    cacheDelete [] (movieDetailsKey "tt0111161") = ([] : Cache) :=
  invalidate_and_get_idempotent.2.1 [] (movieDetailsKey "tt0111161") rfl

end MovieReview

namespace MovieReview

/-- C1 (violated by the code): concrete run of the coherence scenario.  With
the detail page for `tt0111161` cached (no reviews yet), submitting a review
for `tt0111161` commits the review, but `delete_memoized` removes only the key
built from the function object (here its quoted runtime form), so the entry
under `movieDetailsKey "tt0111161"` survives the request unchanged and the next
`movie_details` call is a cache hit that serves the stale page with an empty
joined list — the committed review is invisible. -/
theorem predict_leaves_stale_cache_entry :
    movieDetails [] (.ok { title := "The Shawshank Redemption" })
        [{ id := 1, username := "alice", email := "alice@example.com",
           password := "hash", is_admin := false }] [] "tt0111161" =
      ({ movie_data := some { title := "The Shawshank Redemption" }, reviews := [] },
       [(movieDetailsKey "tt0111161",
         { movie_data := some { title := "The Shawshank Redemption" },
           reviews := [] })]) ∧
    (predictFlow exampleModel []
        [(movieDetailsKey "tt0111161",
          { movie_data := some { title := "The Shawshank Redemption" },
            reviews := [] })]
        "%3Cfunction%20movie_details%20at%200x7f9a%3E" false 1 1
        "this movie was wonderful" (some "tt0111161") false).store =
      [{ id := 1, content := "this movie was wonderful", sentiment := "Positive",
         confidence := 1, user_id := 1, imdb_id := some "tt0111161" }] ∧
    (predictFlow exampleModel []
        [(movieDetailsKey "tt0111161",
          { movie_data := some { title := "The Shawshank Redemption" },
            reviews := [] })]
        "%3Cfunction%20movie_details%20at%200x7f9a%3E" false 1 1
        "this movie was wonderful" (some "tt0111161") false).cache =
      [(movieDetailsKey "tt0111161",
        { movie_data := some { title := "The Shawshank Redemption" },
          reviews := [] })] ∧
    (movieDetails
        [(movieDetailsKey "tt0111161",
          { movie_data := some { title := "The Shawshank Redemption" },
            reviews := [] })]
        (.ok { title := "The Shawshank Redemption" })
        [{ id := 1, username := "alice", email := "alice@example.com",
           password := "hash", is_admin := false }]
        [{ id := 1, content := "this movie was wonderful", sentiment := "Positive",
           confidence := 1, user_id := 1, imdb_id := some "tt0111161" }]
        "tt0111161").1 =
      { movie_data := some { title := "The Shawshank Redemption" },
        reviews := [] } := by
  refine ⟨?_, ?_, ?_, ?_⟩ <;> rfl

/-- C2 counterexample: on a not-found lookup for an uncached id, the rendered
no-data page IS stored under the id's key, and a second call for the same id is
served from the cache even though the catalog now has the item — the renewed
lookup never happens. -/
theorem negative_lookup_cached_counterexample :
    (movieDetails [] .notFound [] [] "tt9999999").2 =
      [(movieDetailsKey "tt9999999", { movie_data := none, reviews := [] })] ∧
    cacheLookup (movieDetails [] .notFound [] [] "tt9999999").2
        (movieDetailsKey "tt9999999") =
      some { movie_data := none, reviews := [] } ∧
    (movieDetails (movieDetails [] .notFound [] [] "tt9999999").2
        (.ok { title := "Real Movie" }) [] [] "tt9999999").1 =
      { movie_data := none, reviews := [] } := by
  refine ⟨?_, ?_, ?_⟩ <;> rfl

/-- C2 as amended: a failed or not-found lookup on a cache miss yields the
no-data page, but that page is stored in the cache like any other, and any
later call for the same identifier is answered from the cache — whatever its
own lookup would have returned. -/
theorem negative_lookup_cached (c : Cache) (users : List User)
    (store : List Review) (imdb_id : String) (lookup : LookupResult)
    (hmiss : cacheLookup c (movieDetailsKey imdb_id) = none)
    (hneg : lookup = .notFound ∨ lookup = .transportError) :
    movieDetails c lookup users store imdb_id =
      ({ movie_data := none, reviews := [] },
       cacheSet c (movieDetailsKey imdb_id) { movie_data := none, reviews := [] }) ∧
    ∀ (lookup' : LookupResult) (users' : List User) (store' : List Review),
      movieDetails (cacheSet c (movieDetailsKey imdb_id)
          { movie_data := none, reviews := [] }) lookup' users' store' imdb_id =
        ({ movie_data := none, reviews := [] },
         cacheSet c (movieDetailsKey imdb_id)
           { movie_data := none, reviews := [] }) := by
  have hbody : movieDetailsBody lookup users store imdb_id =
      { movie_data := none, reviews := [] } := by
    rcases hneg with h | h <;> subst h <;> rfl
  constructor
  · simp [movieDetails, hmiss, hbody]
  · intro lookup' users' store'
    simp [movieDetails, cacheLookup_set_self]

/-- Witness for the amended C2 on the empty cache with a transport fault. -/
theorem negative_lookup_cached_witness :
    movieDetails [] .transportError [] [] "tt0000001" =
      ({ movie_data := none, reviews := [] },
       cacheSet [] (movieDetailsKey "tt0000001")
         { movie_data := none, reviews := [] }) :=
  (negative_lookup_cached [] [] [] "tt0000001" .transportError rfl (Or.inr rfl)).1

/-- C3 counterexample: when the cache backend faults during invalidation, the
review is already committed and stays committed, but the exception propagates —
the caller gets an error response, not the claimed success. -/
theorem invalidate_failure_error_counterexample :
    (predictFlow exampleModel [] [] "fnobj" true 1 1 "bad cache day"
        (some "tt0111161") true).response =
      Except.error CacheError.backend ∧
    (predictFlow exampleModel [] [] "fnobj" true 1 1 "bad cache day"
        (some "tt0111161") true).store =
      [{ id := 1, content := "bad cache day", sentiment := "Positive",
         confidence := 1, user_id := 1, imdb_id := some "tt0111161" }] := by
  exact ⟨rfl, rfl⟩

/-- C3 as amended: the review row is committed before invalidation is attempted
and is never rolled back — every branch of the handler leaves it appended — but
an invalidation fault propagates out of the unguarded delete call, so the
caller receives an error even though the review is durably saved. -/
theorem commit_precedes_invalidation (m : SentimentModel) (store : List Review)
    (c : Cache) (fnArg : String) (deleteRaises : Bool) (next_id user_id : Nat)
    (review_text : String) (imdb_id : Option String) (is_ajax : Bool) :
    (predictFlow m store c fnArg deleteRaises next_id user_id review_text
        imdb_id is_ajax).store =
      store ++ [{ id := next_id, content := review_text,
                  sentiment := classifyLabel m review_text,
                  confidence := classifyConfidence m review_text,
                  user_id := user_id, imdb_id := imdb_id }] ∧
    (formTruthy imdb_id = true → deleteRaises = true →
      (predictFlow m store c fnArg deleteRaises next_id user_id review_text
          imdb_id is_ajax).response = Except.error CacheError.backend) := by
  constructor
  · exact predictFlow_store_eq m store c fnArg deleteRaises next_id user_id
      review_text imdb_id is_ajax
  · intro hf hd
    subst hd
    unfold predictFlow
    simp [hf]

/-- Witness for the amended C3 with a truthy item id and a faulting delete. -/
theorem commit_precedes_invalidation_witness :
    (predictFlow exampleModel [] [] "fnobj" true 2 7 "meh" (some "tt0000002")
        false).store =
      [] ++ [{ id := 2, content := "meh",
               sentiment := classifyLabel exampleModel "meh",
               confidence := classifyConfidence exampleModel "meh",
               user_id := 7, imdb_id := some "tt0000002" }] ∧
    (predictFlow exampleModel [] [] "fnobj" true 2 7 "meh" (some "tt0000002")
        false).response = Except.error CacheError.backend :=
  ⟨(commit_precedes_invalidation exampleModel [] [] "fnobj" true 2 7 "meh"
      (some "tt0000002") false).1,
   (commit_precedes_invalidation exampleModel [] [] "fnobj" true 2 7 "meh"
      (some "tt0000002") false).2 (by decide) rfl⟩

end MovieReview
